import Mathlib

/-!
Verification of the NRLDC daily-report table extractor
(`nrldc/management/commands/nrldc_project.py` and `nrldc/models.py`).

The development shallowly embeds the pure core of the extractor:
string normalisation, the `_safe_float` cell coercion, the pandas
DataFrame operations used by `extract_subtable_by_markers`
(index-label scan, positional slicing, header reconciliation,
duplicate-column removal, `dropna`), and the orchestration that
builds the combined JSON object.  Cells are `Option String`
(`Option.none` standing for a pandas NaN); Python floats are a
symbolic type `PyNum` with exact rationals, infinities and NaN.
All definitions are executable so concrete runs can be checked by
`decide` / `rfl`.
-/

set_option autoImplicit false

/-! ### Python string primitives (over `List Char`, kernel reducible) -/

/-- Whitespace characters removed by Python `str.strip()`. -/
def isPySpace (c : Char) : Bool :=
  c = ' ' || c = '\t' || c = '\n' || c = '\r' || c = '\x0b' || c = '\x0c'

/-- `str.strip()` on a character list. -/
def stripChars (l : List Char) : List Char :=
  ((l.dropWhile isPySpace).reverse.dropWhile isPySpace).reverse

/-- Python `str.strip()`. -/
def pyStrip (s : String) : String := ⟨stripChars s.data⟩

/-- Python `str.lower()` (ASCII, as used on the sentinel tokens). -/
def pyLower (s : String) : String := ⟨s.data.map Char.toLower⟩

/-- Python `value.replace(',', '')`. -/
def removeCommas (s : String) : String := ⟨s.data.filter (fun c => c ≠ ',')⟩

/-- Python `str.replace('\n', ' ')`, used on raw header rows. -/
def replaceNl (s : String) : String :=
  ⟨s.data.map (fun c => if c = '\n' then ' ' else c)⟩

/-! ### Python float values and `float(...)` parsing -/

/-- The result of a successful Python `float(...)`: an exact rational,
a signed infinity, or NaN. -/
inductive PyNum
  | rat (q : ℚ)
  | inf (neg : Bool)
  | nan
deriving DecidableEq, Repr

/-- Value of a digit list, most significant first. -/
def digitsToNat (l : List Char) : Nat :=
  l.foldl (fun a c => a * 10 + (c.toNat - 48)) 0

/-- All characters are decimal digits. -/
def allDigits (l : List Char) : Bool := l.all Char.isDigit

/-- Parse the exponent part after `e`/`E` of a float literal. -/
def parseExp (l : List Char) : Option Int :=
  match l with
  | [] => Option.none
  | '+' :: rest =>
      if rest ≠ [] ∧ allDigits rest then some (Int.ofNat (digitsToNat rest))
      else Option.none
  | '-' :: rest =>
      if rest ≠ [] ∧ allDigits rest then some (-(Int.ofNat (digitsToNat rest)))
      else Option.none
  | _ =>
      if allDigits l then some (Int.ofNat (digitsToNat l)) else Option.none

/-- Parse the mantissa (digits with at most one dot); returns the digits
read as an integer together with the number of fractional digits. -/
def parseMantissa (l : List Char) : Option (Nat × Nat) :=
  let ip := l.takeWhile (fun c => c ≠ '.')
  let rest := l.dropWhile (fun c => c ≠ '.')
  match rest with
  | [] =>
      if ip ≠ [] ∧ allDigits ip then some (digitsToNat ip, 0) else Option.none
  | _ :: fp =>
      if fp.contains '.' then Option.none
      else if allDigits ip ∧ allDigits fp ∧ (ip ≠ [] ∨ fp ≠ []) then
        some (digitsToNat (ip ++ fp), fp.length)
      else Option.none

/-- Python `float(s)` on a string: strips whitespace, handles an optional
sign, the words `inf`/`infinity`/`nan`, and decimal literals with an
optional fraction and exponent.  `Option.none` models the `ValueError`. -/
def pyFloat (s : String) : Option PyNum :=
  let l := stripChars s.data
  let signed : Bool × List Char :=
    match l with
    | '+' :: r => (false, r)
    | '-' :: r => (true, r)
    | r => (false, r)
  let neg := signed.1
  let body := signed.2
  let low := body.map Char.toLower
  if low = "inf".data ∨ low = "infinity".data then some (PyNum.inf neg)
  else if low = "nan".data then some PyNum.nan
  else
    let mPart := body.takeWhile (fun c => ¬ (c = 'e' ∨ c = 'E'))
    let ePart := body.dropWhile (fun c => ¬ (c = 'e' ∨ c = 'E'))
    let expVal : Option Int :=
      match ePart with
      | [] => some 0
      | _ :: rest => parseExp rest
    match parseMantissa mPart, expVal with
    | some (m, fl), some e =>
        some (PyNum.rat ((if neg then -(m : ℚ) else (m : ℚ)) * 10 ^ (e - (fl : Int))))
    | _, _ => Option.none

/-! ### Cell values reaching `_safe_float` -/

/-- A cell value as seen by `_safe_float`: a Python string, a Python
float (NaN included), or Python `None`. -/
inductive PyVal
  | str (s : String)
  | num (n : PyNum)
  | none
deriving DecidableEq, Repr

/-- The sentinel tokens treated as absent by `_safe_float`. -/
def sentinelStrings : List String := ["n/a", "-", "null", "nan"]

/-- Embedding of `Command._safe_float`:
strip; a colon means a clock time, never numeric; remove commas; empty
or sentinel strings are absent; otherwise `float(...)`.  Non-string
inputs go straight to `float(...)`: a float is returned unchanged and
`None` raises `TypeError`, caught and turned into `None`. -/
def _safe_float (v : PyVal) : Option PyNum :=
  match v with
  | PyVal.str s =>
      let v1 := pyStrip s
      if v1.data.contains ':' then Option.none
      else
        let v2 := removeCommas v1
        if v2 = "" ∨ sentinelStrings.contains (pyLower v2) then Option.none
        else pyFloat v2
  | PyVal.num n => some n
  | PyVal.none => Option.none

/-- The condition, written from the specification, under which numeric
coercion of a string yields the absent value: the string after comma
removal is empty or equals one of the sentinel tokens case-insensitively. -/
def specAbsentStr (s : String) : Prop :=
  removeCommas (pyStrip s) = "" ∨
    sentinelStrings.contains (pyLower (removeCommas (pyStrip s))) = true

instance (s : String) : Decidable (specAbsentStr s) := by
  unfold specAbsentStr; infer_instance

/-- Re-inject the result of `_safe_float` as a Python value: a parsed
number is a float, the absent result is Python `None`. -/
def pyValOfResult (o : Option PyNum) : PyVal :=
  match o with
  | some n => PyVal.num n
  | Option.none => PyVal.none

/-! ### C4 and C8 -/

/-- Evaluation of `_safe_float` on a string input, with the branch
conditions exposed. -/
theorem safe_float_str_eval (s : String) :
    _safe_float (PyVal.str s) =
      (if (pyStrip s).data.contains ':' = true then Option.none
       else if removeCommas (pyStrip s) = "" ∨
           sentinelStrings.contains (pyLower (removeCommas (pyStrip s))) = true then
         Option.none
       else pyFloat (removeCommas (pyStrip s))) := rfl

/-- C4: `_safe_float` returns the absent value exactly when the input is
a string containing a colon, a string that after comma removal is empty
or a sentinel token, a string whose decimal parse fails, or the Python
null; any other string yields the decimal parse of the comma-stripped
string.  The function is total, so it never raises. -/
theorem c4_safe_float_characterisation (v : PyVal) :
    (_safe_float v = Option.none ↔
      ((∃ s, v = PyVal.str s ∧
          ((pyStrip s).data.contains ':' = true ∨ specAbsentStr s ∨
            pyFloat (removeCommas (pyStrip s)) = Option.none)) ∨
        v = PyVal.none)) ∧
    (∀ s, v = PyVal.str s → (pyStrip s).data.contains ':' = false →
      ¬ specAbsentStr s →
      _safe_float v = pyFloat (removeCommas (pyStrip s))) := by
  constructor
  · cases v with
    | str s =>
        by_cases h1 : (pyStrip s).data.contains ':' = true
        · constructor
          · intro _
            exact Or.inl ⟨s, rfl, Or.inl h1⟩
          · intro _
            rw [safe_float_str_eval, if_pos h1]
        · by_cases h2 : specAbsentStr s
          · constructor
            · intro _
              exact Or.inl ⟨s, rfl, Or.inr (Or.inl h2)⟩
            · intro _
              have h2' : removeCommas (pyStrip s) = "" ∨
                  sentinelStrings.contains (pyLower (removeCommas (pyStrip s))) = true := h2
              rw [safe_float_str_eval, if_neg h1, if_pos h2']
          · have h2' : ¬ (removeCommas (pyStrip s) = "" ∨
                sentinelStrings.contains (pyLower (removeCommas (pyStrip s))) = true) := h2
            have heq : _safe_float (PyVal.str s) = pyFloat (removeCommas (pyStrip s)) := by
              rw [safe_float_str_eval, if_neg h1, if_neg h2']
            rw [heq]
            constructor
            · intro h
              exact Or.inl ⟨s, rfl, Or.inr (Or.inr h)⟩
            · rintro (⟨s2, hs2, hcase⟩ | habs)
              · cases hs2
                rcases hcase with hc | hc | hc
                · exact absurd hc h1
                · exact absurd hc h2
                · exact hc
              · exact absurd habs (by simp)
    | num n => simp [_safe_float]
    | none => simp [_safe_float]
  · intro s hv h1 h2
    subst hv
    have h2' : ¬ (removeCommas (pyStrip s) = "" ∨
        sentinelStrings.contains (pyLower (removeCommas (pyStrip s))) = true) := h2
    rw [safe_float_str_eval, if_neg (by simpa using h1), if_neg h2']

/-- Witness for C4 at concrete inputs: the clock time `"12:30"` coerces
to the absent value, and `"1,234"` coerces to the parse of `"1234"`. -/
theorem c4_safe_float_characterisation_witness :
    _safe_float (PyVal.str "12:30") = Option.none ∧
    _safe_float (PyVal.str "1,234") = pyFloat (removeCommas (pyStrip "1,234")) := by
  constructor
  · exact (c4_safe_float_characterisation (PyVal.str "12:30")).1.mpr
      (Or.inl ⟨"12:30", rfl, Or.inl (by decide)⟩)
  · exact (c4_safe_float_characterisation (PyVal.str "1,234")).2 "1,234" rfl
      (by decide) (by decide)

/-- C8: numeric coercion is idempotent — applying `_safe_float` to a
value that is already one of its outputs returns that value unchanged. -/
theorem c8_safe_float_idempotent (o : Option PyNum) :
    _safe_float (pyValOfResult o) = o := by
  cases o with
  | some n => rfl
  | none => rfl

/-! ### Grids, DataFrames and the sub-table locator -/

/-- A grid cell: `Option.none` models a pandas NaN, `some s` a text cell. -/
abbrev Cell := Option String

/-- `pd.isna` on a cell. -/
def isna (c : Cell) : Bool := c.isNone

/-- `astype(str)` on a cell: NaN renders as the literal string `nan`. -/
def cellStr (c : Cell) : String := c.getD "nan"

/-- A row matches a marker when some cell, rendered with `astype(str)`
and stripped, satisfies the marker predicate (the regex search with
`case=False` is abstracted as a Boolean predicate on the text). -/
def rowMatches (m : String → Bool) (row : List Cell) : Bool :=
  row.any (fun c => m (pyStrip (cellStr c)))

/-- A pandas DataFrame as used by the command: index labels, rows, and
the column count. -/
structure DF where
  idx : List Nat
  rows : List (List Cell)
  ncols : Nat
deriving Repr

/-- Width of a collection of rows (the union of column ranges that
`pd.concat` produces). -/
def gridWidth (rows : List (List Cell)) : Nat :=
  rows.foldr (fun r a => max r.length a) 0

/-- Pad a row with NaN up to a width, as `pd.concat` does for tables
with fewer columns. -/
def padTo (w : Nat) (r : List Cell) : List Cell :=
  r ++ List.replicate (w - r.length) Option.none

/-- `dropna(axis=0, how='all')` on a DataFrame: rows whose cells are all
NaN are removed; the index labels of the surviving rows are kept. -/
def dropAllNaRowsDF (df : DF) : DF :=
  let kept := (df.idx.zip df.rows).filter (fun p => !(p.2.all isna))
  ⟨kept.map Prod.fst, kept.map Prod.snd, df.ncols⟩

/-- The grid flattener of `extract_tables_from_pdf`: concatenate all
page tables with a fresh range index, then drop all-NaN rows without
resetting the index. -/
def flattenTables (tables : List (List (List Cell))) : DF :=
  let allRows := tables.flatten
  let w := gridWidth allRows
  let padded := allRows.map (padTo w)
  dropAllNaRowsDF ⟨List.range padded.length, padded, w⟩

/-- The start-marker scan of `extract_subtable_by_markers`: iterate with
`df.iterrows()` and return the index label of the first matching row. -/
def iterrowsFindStart (startM : String → Bool) (df : DF) : Option Nat :=
  ((df.idx.zip df.rows).find? (fun p => rowMatches startM p.2)).map Prod.fst

/-- The end-marker scan: `for i in range(start_idx + 1, len(df))` over
positions, probing rows with `df.iloc[i]`. -/
def findEndIdx (endM : String → Bool) (rows : List (List Cell)) (start1 : Nat) :
    Option Nat :=
  ((List.range rows.length).drop start1).find? (fun i => rowMatches endM (rows.getD i []))

/-- The locator of `extract_subtable_by_markers`: find `start_idx` by
label, optionally find `end_idx` by position, and return the positional
slice `df.iloc[start_idx:end_idx]` (or to the end), reset to position 0.
Returns `Option.none` when the start marker never matches. -/
def locateRawSlice (df : DF) (startM : String → Bool)
    (endM : Option (String → Bool)) : Option (List (List Cell)) :=
  match iterrowsFindStart startM df with
  | Option.none => Option.none
  | some s =>
      let e : Option Nat :=
        match endM with
        | Option.none => Option.none
        | some m => findEndIdx m df.rows (s + 1)
      match e with
      | some e1 => some ((df.rows.drop s).take (e1 - s))
      | Option.none => some (df.rows.drop s)

/-! ### Header reconciliation -/

/-- The hand-specified column names for Table 2(A). -/
def cols2A : List String :=
  ["State", "Thermal", "Hydro", "Gas/Naptha/Diesel", "Solar", "Wind",
   "Others(Biomass/Co-gen etc.)", "Total", "Drawal Sch (Net MU)",
   "Act Drawal (Net MU)", "UI (Net MU)", "Requirement (Net MU)",
   "Shortage (Net MU)", "Consumption (Net MU)"]

/-- The hand-specified column names for Table 2(C). -/
def cols2C : List String :=
  ["State", "Maximum Demand Met of the day", "Time",
   "Shortage during maximum demand", "Requirement at maximum demand",
   "Maximum requirement of the day", "Time.1",
   "Shortage during maximum requirement", "Demand Met at maximum Requirement",
   "Min Demand Met", "Time.2", "ACE_MAX", "ACE_MIN", "Time.3", "Time.4"]

/-- Preprocessing of a raw header cell: `astype(str)`, replace newlines
with spaces, strip. -/
def prepHeaderCell (c : Cell) : String := pyStrip (replaceNl (cellStr c))

/-- One step of the generic two-row header merge (the loop body of the
fallback branch). -/
def mergeCell (idx : Nat) (t b : String) : String :=
  if t = "" ∧ b = "" then "Unnamed_" ++ toString idx
  else if b = "" then t
  else if t = "" then b
  else if ¬ (t.data.isPrefixOf b.data) then pyStrip (t ++ " " ++ b)
  else b

/-- The generic combination of a two-row header over the data width. -/
def genericMerge (top bottom : List Cell) (w : Nat) : List String :=
  (List.range w).map (fun idx =>
    mergeCell idx (pyStrip (prepHeaderCell (top.getD idx Option.none)))
      (pyStrip (prepHeaderCell (bottom.getD idx Option.none))))

/-- Column names for a two-row header: the fixed lists for the two known
tables, the generic merge otherwise. -/
def twoRowHeaderCols (name : String) (top bottom : List Cell) (w : Nat) :
    List String :=
  if name = "Table 2(A)" then cols2A
  else if name = "Table 2(C)" then cols2C
  else genericMerge top bottom w

/-- Column-count reconciliation: pad a short name list with
`Unnamed_Col_{i}` up to the data width, truncate a long one. -/
def reconcileCols (nc : List String) (w : Nat) : List String :=
  if nc.length < w then
    nc ++ (List.range' nc.length (w - nc.length)).map
      (fun i => "Unnamed_Col_" ++ toString i)
  else if w < nc.length then nc.take w
  else nc

/-! ### Row materialisation -/

/-- The materialised sub-table: reconciled column names plus data rows. -/
structure Table where
  cols : List String
  rows : List (List Cell)
deriving DecidableEq, Repr

/-- Select the columns at the given positions, in order. -/
def selectIdxs (idxs : List Nat) (t : Table) : Table :=
  ⟨idxs.map (fun j => t.cols.getD j ""),
   t.rows.map (fun r => idxs.map (fun j => r.getD j Option.none))⟩

/-- Positions kept by `~columns.duplicated()`: the first occurrence of
every column name. -/
def dedupKeptIdxs (cols : List String) : List Nat :=
  (List.range cols.length).filter (fun j => !((cols.take j).contains (cols.getD j "")))

/-- Replace every maximal whitespace run that contains a carriage return
by a single space (the regex substitution on column names). -/
def collapseCrGo (run : List Char) : List Char → List Char
  | [] => if run.reverse.contains '\r' then [' '] else run.reverse
  | c :: cs =>
      if isPySpace c then collapseCrGo (c :: run) cs
      else (if run.reverse.contains '\r' then [' '] else run.reverse) ++
        c :: collapseCrGo [] cs

/-- The carriage-return collapse on a column name. -/
def collapseCr (s : String) : String := ⟨collapseCrGo [] s.data⟩

/-- Column-name cleanup: strip, collapse whitespace around carriage
returns, strip again. -/
def cleanColName (s : String) : String := pyStrip (collapseCr (pyStrip s))

/-- `dropna(axis=0, how='all')` on plain rows (positions only). -/
def dropAllNaRows (rows : List (List Cell)) : List (List Cell) :=
  rows.filter (fun r => !(r.all isna))

/-- Positions of columns kept by `dropna(axis=1, how='all')`: some row
has a non-NaN cell there. -/
def keptColIdxs (rows : List (List Cell)) (w : Nat) : List Nat :=
  (List.range w).filter (fun j => rows.any (fun r => !(isna (r.getD j Option.none))))

/-- `dropna(axis=1, how='all')` on a materialised table. -/
def dropAllNaCols (t : Table) : Table :=
  selectIdxs (keptColIdxs t.rows t.cols.length) t

/-- The row materialiser: assign the reconciled names, drop
duplicate-named columns (first occurrence wins), clean the names, drop
all-NaN rows, then drop all-NaN columns. -/
def materialize (nc : List String) (data : List (List Cell)) : Table :=
  let t1 := selectIdxs (dedupKeptIdxs nc) ⟨nc, data⟩
  let t2 : Table := ⟨t1.cols.map cleanColName, dropAllNaRows t1.rows⟩
  dropAllNaCols t2

/-- Default column names of a raw slice (the positional integer labels
of the DataFrame, rendered as text). -/
def defaultCols (w : Nat) : List String := (List.range w).map toString

/-- Processing of a located raw slice (`raw_sub_df`): synthesise and
reconcile headers when a positive header-row count fits inside the
slice, otherwise fall back to the data rows with all-NaN columns
dropped. -/
def processSlice (raw : List (List Cell)) (w : Nat) (hrc : Nat) (name : String) :
    Table :=
  let dataStart := 1 + hrc
  if 0 < hrc ∧ dataStart ≤ raw.length then
    let newCols : Option (List String) :=
      if hrc = 1 then some ((raw.getD 1 []).map (fun c => pyStrip (cellStr c)))
      else if hrc = 2 then
        some (twoRowHeaderCols name (raw.getD 1 []) (raw.getD 2 []) w)
      else Option.none
    match newCols with
    | some nc => materialize (reconcileCols nc w) (raw.drop dataStart)
    | Option.none => dropAllNaCols ⟨defaultCols w, raw.drop dataStart⟩
  else dropAllNaCols ⟨defaultCols w, raw.drop 1⟩

/-- Embedding of `Command.extract_subtable_by_markers`. -/
def extract_subtable_by_markers (df : DF) (startM : String → Bool)
    (endM : Option (String → Bool)) (hrc : Nat) (name : String) : Option Table :=
  (locateRawSlice df startM endM).map (fun raw => processSlice raw df.ncols hrc name)

/-! ### Orchestration: renaming, filtering, records, combined JSON -/

/-- The Table 2(A) column-to-field mapping of `extract_tables_from_pdf`. -/
def map2A : List (String × String) :=
  [("State", "state"), ("Thermal", "thermal"), ("Hydro", "hydro"),
   ("Gas/Naptha/Diesel", "gas_naptha_diesel"), ("Solar", "solar"),
   ("Wind", "wind"), ("Others(Biomass/Co-gen etc.)", "other_biomass_co_gen_etc"),
   ("Total", "total"), ("Drawal Sch (Net MU)", "drawal_sch"),
   ("Act Drawal (Net MU)", "act_drawal"), ("UI (Net MU)", "ui"),
   ("Requirement (Net MU)", "requirement"), ("Shortage (Net MU)", "shortage"),
   ("Consumption (Net MU)", "consumption")]

/-- The Table 2(C) column-to-field mapping of `extract_tables_from_pdf`. -/
def map2C : List (String × String) :=
  [("State", "state"),
   ("Maximum Demand Met of the day", "max_demand_met_of_the_day"),
   ("Time", "time_max_demand_met"),
   ("Shortage during maximum demand", "shortage_during_max_demand"),
   ("Requirement at maximum demand", "requirement_at_max_demand"),
   ("Maximum requirement of the day", "max_requirement_of_the_day"),
   ("Time.1", "time_max_requirement"),
   ("Shortage during maximum requirement", "shortage_during_max_requirement"),
   ("Demand Met at maximum Requirement", "demand_met_at_max_requirement"),
   ("Min Demand Met", "min_demand_met"),
   ("Time.2", "time_min_demand_met"),
   ("ACE_MAX", "ace_max"), ("ACE_MIN", "time_ace_max"),
   ("Time.3", "ace_min"), ("Time.4", "time_ace_min")]

/-- `df.rename(columns=mapping)`: map every column name through the
mapping, keeping names that are not keys. -/
def renameCols (m : List (String × String)) (t : Table) : Table :=
  ⟨t.cols.map (fun c => ((m.find? (fun p => p.1 = c)).map Prod.snd).getD c), t.rows⟩

/-- All positions of columns carrying a given name. -/
def colIdxsOf (cols : List String) (n : String) : List Nat :=
  (List.range cols.length).filter (fun j => cols.getD j "" = n)

/-- `df[[col for col in mapping.values() if col in df.columns]]`:
select, in mapping order, every column whose name is a mapped field. -/
def filterCols (wanted : List String) (t : Table) : Table :=
  let names := wanted.filter (fun n => t.cols.contains n)
  selectIdxs (names.flatMap (colIdxsOf t.cols)) t

/-- `to_dict(orient='records')`: one key-value object per data row. -/
def to_records (t : Table) : List (List (String × Cell)) :=
  t.rows.map (fun r => t.cols.zip r)

/-- The per-table record pipeline of the orchestrator: rename the
materialised columns to model fields, keep the mapped ones, and emit
one record per row. -/
def recordsFor (m : List (String × String)) (t : Table) :
    List (List (String × Cell)) :=
  to_records (filterCols (m.map Prod.snd) (renameCols m t))

/-- The combined JSON object of `extract_tables_from_pdf`: the
`table_2A` entry when table A was located, then the `table_2C` entry
when table C was located. -/
def combinedJsonData (df : DF) (startA endA startC endC : String → Bool) :
    List (String × List (List (String × Cell))) :=
  (match extract_subtable_by_markers df startA (some endA) 2 "Table 2(A)" with
   | some t => [("table_2A", recordsFor map2A t)]
   | Option.none => []) ++
  (match extract_subtable_by_markers df startC (some endC) 2 "Table 2(C)" with
   | some t => [("table_2C", recordsFor map2C t)]
   | Option.none => [])

/-! ### Persistence schemas (from `nrldc/models.py`) and the upsert
keyword arguments used by the command -/

/-- The fields declared on `Table2AData` in `nrldc/models.py`. -/
def table2ADataFields : List String :=
  ["report", "state", "thermal", "hydro", "gas_naptha_diesel", "solar",
   "wind", "other_biomass_co_gen_etc", "total_generation",
   "drawal_sch_net_mu", "act_drawal_net_mu", "ui_net_mu",
   "requirement_net_mu", "shortage_net_mu", "consumption_net_mu"]

/-- The fields declared on `Table2CData` in `nrldc/models.py`. -/
def table2CDataFields : List String :=
  ["report", "state", "max_demand_met_of_the_day", "time_max_demand_met",
   "shortage_during_max_demand", "requirement_at_max_demand",
   "max_requirement_of_the_day", "time_max_requirement",
   "shortage_during_max_requirement", "demand_met_at_max_requirement",
   "min_demand_met", "time_min_demand_met", "unused_col", "ace_max",
   "ace_min", "time_ace"]

/-- The keyword arguments the command passes to
`Table2AData.objects.update_or_create` (lookup keys and `defaults`). -/
def upsert2AKwargs : List String :=
  ["report_date", "state", "thermal", "hydro", "gas_naptha_diesel",
   "solar", "wind", "other_biomass_co_gen_etc", "total", "drawal_sch",
   "act_drawal", "ui", "requirement", "shortage", "consumption"]

/-- The keyword arguments the command passes to
`Table2CData.objects.update_or_create` (lookup keys and `defaults`). -/
def upsert2CKwargs : List String :=
  ["report_date", "state", "max_demand_met_of_the_day",
   "time_max_demand_met", "shortage_during_max_demand",
   "requirement_at_max_demand", "max_requirement_of_the_day",
   "time_max_requirement", "shortage_during_max_requirement",
   "demand_met_at_max_requirement", "min_demand_met",
   "time_min_demand_met", "ace_max", "ace_min", "time_ace_max",
   "time_ace_min"]

/-! ### C1: the locator mixes index labels with positions -/

/-- Concrete start marker for the C1 run. -/
def mStartC1 : String → Bool := fun s => s = "START"

/-- Concrete end marker for the C1 run; it matches no row. -/
def mEndC1 : String → Bool := fun s => s = "END"

/-- A one-page grid whose first row is all NaN, followed by the marker
row and one data row. -/
def gridC1 : List (List (List Cell)) :=
  [[[Option.none], [some "START"], [some "D1"]]]

/-- The unified grid of the C1 run: after `dropna` the surviving rows
keep their original labels 1 and 2. -/
def dfC1 : DF := flattenTables gridC1

/-- C1 fails on the code: in the unified grid the first row matching the
start marker is row 0 (label 1), so the claim requires the slice
`[0, end)`, i.e. both rows; the code takes the label from `iterrows`
but slices with `iloc`, so it returns only the second row and loses the
marker row. -/
theorem c1_locator_slice_shifted :
    dfC1.rows = [[some "START"], [some "D1"]] ∧
    rowMatches mStartC1 (dfC1.rows.getD 0 []) = true ∧
    (∀ r, r ∈ dfC1.rows → rowMatches mEndC1 r = false) ∧
    locateRawSlice dfC1 mStartC1 (some mEndC1) = some [[some "D1"]] ∧
    some (dfC1.rows.drop 0) ≠ locateRawSlice dfC1 mStartC1 (some mEndC1) := by
  refine ⟨by decide, by decide, by decide, by decide, by decide⟩

/-! ### C2: header padding and truncation -/

/-- C2: the reconciled header has length exactly the data width; a short
name list is padded at the end with `Unnamed_Col_{i}` for `i` from the
list length to `w - 1`, a long one is truncated to its first `w` names. -/
theorem c2_reconciled_header (nc : List String) (w : Nat) :
    (reconcileCols nc w).length = w ∧
    (nc.length < w →
      reconcileCols nc w =
        nc ++ (List.range' nc.length (w - nc.length)).map
          (fun i => "Unnamed_Col_" ++ toString i)) ∧
    (w < nc.length → reconcileCols nc w = nc.take w) := by
  refine ⟨?_, ?_, ?_⟩
  · unfold reconcileCols
    split_ifs with h1 h2
    · simp only [List.length_append, List.length_map, List.length_range']
      omega
    · simp only [List.length_take]
      omega
    · omega
  · intro h
    unfold reconcileCols
    rw [if_pos h]
  · intro h
    unfold reconcileCols
    rw [if_neg (by omega), if_pos h]

/-- Witness for C2: a one-name header against width 3 is padded with
`Unnamed_Col_1` and `Unnamed_Col_2`. -/
theorem c2_reconciled_header_witness :
    (reconcileCols ["State"] 3).length = 3 ∧
    reconcileCols ["State"] 3 =
      ["State"] ++ (List.range' 1 2).map (fun i => "Unnamed_Col_" ++ toString i) :=
  ⟨(c2_reconciled_header ["State"] 3).1,
   (c2_reconciled_header ["State"] 3).2.1 (by decide)⟩

/-! ### C3: generic two-row header merge -/

/-- `getD` of a map over `List.range`. -/
theorem getD_map_range {α : Type} (f : Nat → α) (w idx : Nat) (d : α)
    (h : idx < w) : ((List.range w).map f).getD idx d = f idx := by
  rw [List.getD_eq_getElem?_getD, List.getElem?_map, List.getElem?_range h]
  rfl

/-- C3: for a table that is neither Table 2(A) nor Table 2(C), the merged
column name at each position is `Unnamed_{index}` when parent and child
are both blank, the parent when only the child is blank, the child when
only the parent is blank, the child alone when it starts with the
parent, and otherwise the trimmed concatenation of parent, a space and
child. -/
theorem c3_generic_header_merge (name : String) (top bottom : List Cell)
    (w idx : Nat) (hA : name ≠ "Table 2(A)") (hC : name ≠ "Table 2(C)")
    (hidx : idx < w) :
    (twoRowHeaderCols name top bottom w).getD idx "" =
      (let t := pyStrip (prepHeaderCell (top.getD idx Option.none))
       let b := pyStrip (prepHeaderCell (bottom.getD idx Option.none))
       if t = "" ∧ b = "" then "Unnamed_" ++ toString idx
       else if b = "" then t
       else if t = "" then b
       else if t.data.isPrefixOf b.data then b
       else pyStrip (t ++ " " ++ b)) := by
  unfold twoRowHeaderCols
  rw [if_neg hA, if_neg hC]
  unfold genericMerge
  rw [getD_map_range _ _ _ _ hidx]
  unfold mergeCell
  split_ifs <;> simp_all

/-- Witness for C3: merging the parent `Max` with the child `Demand` on
an unrecognised table yields `Max Demand`. -/
theorem c3_generic_header_merge_witness :
    (twoRowHeaderCols "X" [some "Max"] [some "Demand"] 1).getD 0 "" = "Max Demand" := by
  have h := c3_generic_header_merge "X" [some "Max"] [some "Demand"] 1 0
    (by decide) (by decide) (by decide)
  rw [h]
  decide

/-! ### C10: slices too short for the declared header rows -/

/-- C10: when the located slice has fewer than `1 + header_row_count`
rows and the header-row count is positive, header synthesis is skipped
and the function returns the rows from index 1 onward with all-NaN
columns dropped. -/
theorem c10_short_slice_fallback (raw : List (List Cell)) (w hrc : Nat)
    (name : String) (h1 : 0 < hrc) (h2 : raw.length < 1 + hrc) :
    processSlice raw w hrc name = dropAllNaCols ⟨defaultCols w, raw.drop 1⟩ := by
  unfold processSlice
  rw [if_neg]
  rintro ⟨-, hle⟩
  omega

/-- Witness for C10: a one-row slice with two declared header rows falls
back to the data rows from index 1. -/
theorem c10_short_slice_fallback_witness :
    processSlice [[some "x"]] 1 2 "T" =
      dropAllNaCols ⟨defaultCols 1, ([[some "x"]] : List (List Cell)).drop 1⟩ :=
  c10_short_slice_fallback [[some "x"]] 1 2 "T" (by decide) (by decide)

/-! ### C5: pruning of empty rows and columns -/

/-- A cell that is blank or absent in the sense of the specification:
NaN, or present text that strips to the empty string. -/
def cellBlankOrAbsent (c : Cell) : Bool :=
  isna c || (pyStrip (cellStr c) == "")

/-- C5 fails on the code: `dropna` only inspects NaN, so a row whose
cells are present but blank (empty strings) survives the materialiser.
Here the row `[some ""]` is fully blank-or-absent yet appears in the
output. -/
theorem c5_blank_row_not_dropped :
    (∀ c, c ∈ ([some ""] : List Cell) → cellBlankOrAbsent c = true) ∧
    [some ""] ∈ (materialize ["H"] [[some "a"], [some ""]]).rows := by
  refine ⟨by decide, by decide⟩

/-- Every row surviving `dropna(axis=1, how='all')` keeps one of its
non-NaN cells, provided rows are as wide as the column list. -/
theorem dropAllNaCols_rows_have_value (t : Table)
    (hw : ∀ r, r ∈ t.rows → r.length = t.cols.length)
    (hnz : ∀ r, r ∈ t.rows → ∃ c, c ∈ r ∧ isna c = false) :
    ∀ r2, r2 ∈ (dropAllNaCols t).rows → ∃ c, c ∈ r2 ∧ isna c = false := by
  intro r2 hr2
  simp only [dropAllNaCols, selectIdxs, List.mem_map] at hr2
  obtain ⟨r, hr, rfl⟩ := hr2
  obtain ⟨c, hc, hna⟩ := hnz r hr
  obtain ⟨j0, hj0, hj0v⟩ := List.mem_iff_getElem.mp hc
  have hgetD : r.getD j0 Option.none = c := by
    rw [List.getD_eq_getElem?_getD, List.getElem?_eq_getElem hj0]
    simpa using hj0v
  refine ⟨c, ?_, hna⟩
  apply List.mem_map.mpr
  refine ⟨j0, ?_, hgetD⟩
  apply List.mem_filter.mpr
  constructor
  · exact List.mem_range.mpr (by rw [← hw r hr]; exact hj0)
  · apply List.any_eq_true.mpr
    refine ⟨r, hr, ?_⟩
    rw [hgetD, hna]
    rfl

/-- Every column surviving `dropna(axis=1, how='all')` is witnessed by a
non-NaN cell in some surviving row. -/
theorem dropAllNaCols_cols_have_value (t : Table) :
    ∀ j, j < (dropAllNaCols t).cols.length →
      ∃ r2, r2 ∈ (dropAllNaCols t).rows ∧ isna (r2.getD j Option.none) = false := by
  intro j hj
  have hjk : j < (keptColIdxs t.rows t.cols.length).length := by
    simpa [dropAllNaCols, selectIdxs] using hj
  have hmem : (keptColIdxs t.rows t.cols.length).get ⟨j, hjk⟩ ∈
      keptColIdxs t.rows t.cols.length := List.get_mem _ _ _
  have hp := (List.mem_filter.mp hmem).2
  obtain ⟨r, hr, hrp⟩ := List.any_eq_true.mp hp
  refine ⟨(keptColIdxs t.rows t.cols.length).map (fun i => r.getD i Option.none), ?_, ?_⟩
  · simp only [dropAllNaCols, selectIdxs, List.mem_map]
    exact ⟨r, hr, rfl⟩
  · have heq : ((keptColIdxs t.rows t.cols.length).map
        (fun i => r.getD i Option.none)).getD j Option.none =
        r.getD ((keptColIdxs t.rows t.cols.length).get ⟨j, hjk⟩) Option.none := by
      rw [List.getD_eq_getElem?_getD, List.getElem?_map, List.getElem?_eq_getElem hjk]
      rfl
    rw [heq]
    simpa using hrp

/-- C5 amended: the materialiser drops every row all of whose cells are
absent (NaN), and every column all of whose remaining cells are absent —
after it runs, each output row and each output column holds at least one
non-NaN cell.  Blank-but-present cells do not count as absent. -/
theorem c5_amended_prune (nc : List String) (data : List (List Cell)) :
    (∀ r, r ∈ (materialize nc data).rows → ∃ c, c ∈ r ∧ isna c = false) ∧
    (∀ j, j < (materialize nc data).cols.length →
      ∃ r, r ∈ (materialize nc data).rows ∧ isna (r.getD j Option.none) = false) := by
  have hmat : materialize nc data =
      dropAllNaCols
        ⟨((dedupKeptIdxs nc).map (fun j => nc.getD j "")).map cleanColName,
         dropAllNaRows (data.map (fun r => (dedupKeptIdxs nc).map
           (fun j => r.getD j Option.none)))⟩ := rfl
  constructor
  · intro r hr
    rw [hmat] at hr
    refine dropAllNaCols_rows_have_value _ ?_ ?_ r hr
    · intro r0 hr0
      have hr0' := List.mem_filter.mp hr0
      obtain ⟨r1, -, rfl⟩ := List.mem_map.mp hr0'.1
      simp
    · intro r0 hr0
      have hr0' := List.mem_filter.mp hr0
      have := hr0'.2
      simp only [Bool.not_eq_true', List.all_eq_false] at this
      obtain ⟨c, hc, hcna⟩ := this
      exact ⟨c, hc, by simpa using hcna⟩
  · intro j hj
    rw [hmat] at hj ⊢
    exact dropAllNaCols_cols_have_value _ j hj

/-- Witness for the amended C5: in a concrete materialised table the
surviving row still holds its non-absent cell. -/
theorem c5_amended_prune_witness :
    ∃ c, c ∈ ([some "x"] : List Cell) ∧ isna c = false :=
  (c5_amended_prune ["H"] [[Option.none], [some "x"]]).1 [some "x"] (by decide)

/-! ### C6: persistence schemas versus the upsert keyword arguments -/

/-- C6 fails on the code: the command upserts with keyword arguments that
are not fields of the models — `Table2AData` has no `report_date` field
(only a `report` foreign key) and none of `total`, `drawal_sch`, `ui`;
`Table2CData` has neither `report_date` nor `time_ace_max`/`time_ace_min`.
Django therefore raises `FieldError` for every row, so no upsert keyed by
`(report_date, state)` ever happens. -/
theorem c6_upsert_kwargs_not_model_fields :
    "report_date" ∈ upsert2AKwargs ∧ "report_date" ∉ table2ADataFields ∧
    "total" ∈ upsert2AKwargs ∧ "total" ∉ table2ADataFields ∧
    "drawal_sch" ∈ upsert2AKwargs ∧ "drawal_sch" ∉ table2ADataFields ∧
    "ui" ∈ upsert2AKwargs ∧ "ui" ∉ table2ADataFields ∧
    "report_date" ∈ upsert2CKwargs ∧ "report_date" ∉ table2CDataFields ∧
    "time_ace_max" ∈ upsert2CKwargs ∧ "time_ace_max" ∉ table2CDataFields ∧
    "time_ace_min" ∈ upsert2CKwargs ∧ "time_ace_min" ∉ table2CDataFields := by
  decide

/-! ### C7: a missing start marker is non-fatal and table-local -/

/-- C7: when table C's start marker matches no row of the unified grid,
its extraction returns the not-found signal and the combined JSON object
is exactly what table A's pipeline alone produces; the orchestration is
a total function, so the run neither aborts nor raises. -/
theorem c7_missing_marker_nonfatal (df : DF) (sA eA sC eC : String → Bool)
    (h : ∀ r, r ∈ df.rows → rowMatches sC r = false) :
    extract_subtable_by_markers df sC (some eC) 2 "Table 2(C)" = Option.none ∧
    combinedJsonData df sA eA sC eC =
      (match extract_subtable_by_markers df sA (some eA) 2 "Table 2(A)" with
       | some t => [("table_2A", recordsFor map2A t)]
       | Option.none => []) := by
  have hfind : (df.idx.zip df.rows).find? (fun p => rowMatches sC p.2) =
      Option.none := by
    apply List.find?_eq_none.mpr
    intro p hp
    have h2 := (List.of_mem_zip hp).2
    simp [h p.2 h2]
  have hC : extract_subtable_by_markers df sC (some eC) 2 "Table 2(C)" =
      Option.none := by
    unfold extract_subtable_by_markers locateRawSlice iterrowsFindStart
    rw [hfind]
    rfl
  refine ⟨hC, ?_⟩
  unfold combinedJsonData
  rw [hC]
  simp

/-- Concrete unified grid for the C7 and C9 witnesses: a title row for
table A, two header rows and one data row; no row mentions table C. -/
def dfC7 : DF := ⟨[0, 1, 2, 3], [[some "A"], [some "h1"], [some "h2"], [some "d"]], 1⟩

/-- Start marker for table A in the witness grid. -/
def sAC7 : String → Bool := fun s => s = "A"

/-- End marker for table A in the witness grid (matches nothing). -/
def eAC7 : String → Bool := fun s => s = "E"

/-- Start marker for table C in the witness grid (matches nothing). -/
def sCC7 : String → Bool := fun s => s = "C"

/-- End marker for table C in the witness grid (matches nothing). -/
def eCC7 : String → Bool := fun s => s = "F"

/-- Witness for C7: on the concrete grid table C is reported not found
while the combined JSON object carries table A's records. -/
theorem c7_missing_marker_nonfatal_witness :
    extract_subtable_by_markers dfC7 sCC7 (some eCC7) 2 "Table 2(C)" = Option.none ∧
    combinedJsonData dfC7 sAC7 eAC7 sCC7 eCC7 =
      (match extract_subtable_by_markers dfC7 sAC7 (some eAC7) 2 "Table 2(A)" with
       | some t => [("table_2A", recordsFor map2A t)]
       | Option.none => []) :=
  c7_missing_marker_nonfatal dfC7 sAC7 eAC7 sCC7 eCC7 (by decide)

/-! ### C9: shape of the combined JSON object -/

/-- The per-table record list holds exactly one record per materialised
data row. -/
theorem recordsFor_length (m : List (String × String)) (t : Table) :
    (recordsFor m t).length = t.rows.length := by
  simp [recordsFor, to_records, filterCols, selectIdxs, renameCols]

/-- C9: the combined JSON object has the `table_2A` entry exactly when
the locator found table A, and then the entry is the record array with
one object per materialised data row; likewise for `table_2C`; an entry
whose locator returned not-found is omitted entirely. -/
theorem c9_combined_json_shape (df : DF) (sA eA sC eC : String → Bool) :
    (((∃ l, ("table_2A", l) ∈ combinedJsonData df sA eA sC eC) ↔
        (∃ t, extract_subtable_by_markers df sA (some eA) 2 "Table 2(A)" = some t)) ∧
      (∀ t, extract_subtable_by_markers df sA (some eA) 2 "Table 2(A)" = some t →
        ("table_2A", recordsFor map2A t) ∈ combinedJsonData df sA eA sC eC ∧
        (recordsFor map2A t).length = t.rows.length)) ∧
    (((∃ l, ("table_2C", l) ∈ combinedJsonData df sA eA sC eC) ↔
        (∃ t, extract_subtable_by_markers df sC (some eC) 2 "Table 2(C)" = some t)) ∧
      (∀ t, extract_subtable_by_markers df sC (some eC) 2 "Table 2(C)" = some t →
        ("table_2C", recordsFor map2C t) ∈ combinedJsonData df sA eA sC eC ∧
        (recordsFor map2C t).length = t.rows.length)) := by
  have hne : ¬ (("table_2A" : String) = "table_2C") := by decide
  unfold combinedJsonData
  cases hA : extract_subtable_by_markers df sA (some eA) 2 "Table 2(A)" with
  | some tA =>
      cases hC : extract_subtable_by_markers df sC (some eC) 2 "Table 2(C)" with
      | some tC =>
          refine ⟨⟨?_, ?_⟩, ⟨?_, ?_⟩⟩
          · simp
          · intro t ht
            obtain rfl : tA = t := by simpa using ht
            exact ⟨by simp, recordsFor_length map2A tA⟩
          · simp
          · intro t ht
            obtain rfl : tC = t := by simpa using ht
            exact ⟨by simp, recordsFor_length map2C tC⟩
      | none =>
          refine ⟨⟨?_, ?_⟩, ⟨?_, ?_⟩⟩
          · simp
          · intro t ht
            obtain rfl : tA = t := by simpa using ht
            exact ⟨by simp, recordsFor_length map2A tA⟩
          · simp [hne]
          · intro t ht
            simp at ht
  | none =>
      cases hC : extract_subtable_by_markers df sC (some eC) 2 "Table 2(C)" with
      | some tC =>
          refine ⟨⟨?_, ?_⟩, ⟨?_, ?_⟩⟩
          · simp [hne]
          · intro t ht
            simp at ht
          · simp
          · intro t ht
            obtain rfl : tC = t := by simpa using ht
            exact ⟨by simp, recordsFor_length map2C tC⟩
      | none =>
          refine ⟨⟨?_, ?_⟩, ⟨?_, ?_⟩⟩
          · simp
          · intro t ht
            simp at ht
          · simp
          · intro t ht
            simp at ht

/-- Witness for C9: on the concrete grid, the table A entry is present
with one record for the single data row. -/
theorem c9_combined_json_shape_witness :
    ("table_2A", recordsFor map2A (Table.mk ["State"] [[some "d"]])) ∈
      combinedJsonData dfC7 sAC7 eAC7 sCC7 eCC7 ∧
    (recordsFor map2A (Table.mk ["State"] [[some "d"]])).length =
      (Table.mk ["State"] [[some "d"]]).rows.length :=
  (c9_combined_json_shape dfC7 sAC7 eAC7 sCC7 eCC7).1.2
    (Table.mk ["State"] [[some "d"]]) (by decide)

/-- Supporting fact for C1: on the same two surviving rows but with a
reset positional index, the locator does return the slice the claim
describes, from the marker row to the grid end — so the shifted slice
above is caused purely by the label/position mixing. -/
theorem c1_reset_index_recovers :
    locateRawSlice ⟨[0, 1], [[some "START"], [some "D1"]], 1⟩ mStartC1 (some mEndC1) =
      some [[some "START"], [some "D1"]] := by
  decide
